import Mathlib

/-!
Verification of the `ns_trcd` computation worker (`ns_trcd/comp_worker.py`,
`ns_trcd/common.py`).

Traces are embedded as functions `Fin n → ℚ` (one rational sample per point;
the Python code uses numpy float arrays — rationals model the exact field
arithmetic, and the floating-point trap semantics of
`np.seterr(invalid="raise", divide="raise")` are modelled explicitly: a
division whose denominator is zero, or a `log10` whose argument is not
positive, signals an error).  Derived dA/CD values live in an arbitrary
linear ordered field `K` equipped with an abstract function
`log10 : K → K`; every theorem below is proved for every such `K` and
`log10`, in particular for `K = ℝ` with `log10 = Real.logb 10`, and
witnesses instantiate `K = ℚ` so that every definition evaluates on
concrete inputs.  Fallible operations return `Except`: an erroring call
produces no successor state, matching the fact that a raised
`FloatingPointError`/`TypeError` escapes `compute_signals` to the caller.
-/

/-- Trace length constant `POINTS` from `common.py` (the embedding keeps the
trace length as a parameter `n`, so this constant is recorded only for
reference). -/
def POINTS : ℕ := 1000

/-- One calibrated acquisition: the `MeasurementData` dataclass of
`comp_worker.py` (parallel, perpendicular and reference traces). -/
structure MeasurementData (n : ℕ) where
  par : Fin n → ℚ
  perp : Fin n → ℚ
  ref : Fin n → ℚ

/-- One raw oscilloscope acquisition: the `RawData` dataclass of `common.py`. -/
structure RawData (n : ℕ) where
  par : Fin n → ℚ
  perp : Fin n → ℚ
  ref : Fin n → ℚ
  has_pump : Bool

/-- The `Preamble` dataclass of `common.py`: per-session calibration record. -/
structure Preamble where
  t_res : ℚ
  v_scale_par : ℚ
  v_offset_par : ℚ
  v_scale_perp : ℚ
  v_offset_perp : ℚ
  v_scale_ref : ℚ
  v_offset_ref : ℚ
  points : ℕ

/-- The three derived traces returned by `ComputationWorker.compute_da`,
valued in the field `K`. -/
structure Derived (K : Type) (n : ℕ) where
  da_par : Fin n → K
  da_perp : Fin n → K
  da_cd : Fin n → K

/-- The `PlotData` dataclass of `common.py`: the snapshot emitted through the
`new_data` signal on every call of `compute_signals`.  The six optional
fields are `None` when no pump/no-pump pair completed on that call. -/
structure PlotData (K : Type) (n : ℕ) where
  par : Fin n → ℚ
  perp : Fin n → ℚ
  ref : Fin n → ℚ
  da_par : Option (Fin n → K)
  da_perp : Option (Fin n → K)
  da_cd : Option (Fin n → K)
  avg_da_par : Option (Fin n → K)
  avg_da_perp : Option (Fin n → K)
  avg_da_cd : Option (Fin n → K)

/-- Mutex operations performed by the worker around the shared stop flag
(`self.mutex.lock()`, `common.SHOULD_STOP = True`, `self.mutex.unlock()`). -/
inductive MutexEvent where
  | lock : MutexEvent
  | setStop : MutexEvent
  | unlock : MutexEvent
deriving DecidableEq

/-- A numpy `FloatingPointError` raised under
`np.seterr(invalid="raise", divide="raise")`. -/
inductive FpError where
  | fpe : FpError
deriving DecidableEq

/-- Errors that escape `compute_signals` to the caller: the `TypeError`
raised when the preamble has not been stored yet (`None` scale/offset
fields), or an unrecovered `FloatingPointError` from `compute_da`. -/
inductive WorkerErr where
  | notCalibrated : WorkerErr
  | fp : FpError → WorkerErr
deriving DecidableEq

/-- The mutable state of a `ComputationWorker` (its `__init__` fields, with
the stored preamble collapsed into one optional record since
`store_preamble` always sets all of its fields together).  The shared
`common.SHOULD_STOP` flag is carried in the state as well, since the worker
is its only writer. -/
structure WorkerState (K : Type) (n : ℕ) where
  count : ℕ
  average_count : ℕ
  should_reset_averages : Bool
  max_measurements : ℕ
  avg_da_par : Fin n → K
  avg_da_perp : Fin n → K
  avg_da_cd : Fin n → K
  with_pump : Option (MeasurementData n)
  without_pump : Option (MeasurementData n)
  calib : Option Preamble
  dark_curr_par : Option ℚ
  dark_curr_perp : Option ℚ
  dark_curr_ref : Option ℚ
  should_stop : Bool

/-- Everything one successful `compute_signals` call produces besides the new
state: the `PlotData` snapshots emitted through `new_data`, and the mutex
events performed around the shared stop flag. -/
structure StepOut (K : Type) (n : ℕ) where
  state : WorkerState K n
  emitted : List (PlotData K n)
  events : List MutexEvent

section Worker

variable {K : Type} [LinearOrderedField K]

/-- The worker state right after `ComputationWorker.__init__` (with
`save=False`; persistence is out of scope of the verified claims):
counters zero, averages `np.zeros`, no buffered acquisition, no preamble,
`common.SHOULD_STOP = False`. -/
def initState (K : Type) [LinearOrderedField K] (n : ℕ) (maxM : ℕ)
    (dp dq dr : Option ℚ) : WorkerState K n where
  count := 0
  average_count := 0
  should_reset_averages := false
  max_measurements := maxM
  avg_da_par := fun _ => 0
  avg_da_perp := fun _ => 0
  avg_da_cd := fun _ => 0
  with_pump := none
  without_pump := none
  calib := none
  dark_curr_par := dp
  dark_curr_perp := dq
  dark_curr_ref := dr
  should_stop := false

/-- The `store_preamble` slot (its `time_axis` emission carries no state and
is not modelled). -/
def store_preamble {n : ℕ} (s : WorkerState K n) (p : Preamble) :
    WorkerState K n :=
  { s with calib := some p }

/-- The `reset_averages` slot: sets the pending-reset flag. -/
def reset_averages {n : ℕ} (s : WorkerState K n) : WorkerState K n :=
  { s with should_reset_averages := true }

/-- Calibration of one channel, lines 120-128 of `comp_worker.py`:
`value * scale + offset`, then dark-current subtraction if a dark-current
constant was configured for this channel. -/
def calibrateChannel {n : ℕ} (raw : Fin n → ℚ) (scale offset : ℚ)
    (dark : Option ℚ) : Fin n → ℚ :=
  fun i =>
    match dark with
    | some dc => raw i * scale + offset - dc
    | none => raw i * scale + offset

/-- Calibration of a whole raw acquisition (all three channels). -/
def calibrate {n : ℕ} (s : WorkerState K n) (pre : Preamble) (d : RawData n) :
    MeasurementData n where
  par := calibrateChannel d.par pre.v_scale_par pre.v_offset_par s.dark_curr_par
  perp := calibrateChannel d.perp pre.v_scale_perp pre.v_offset_perp s.dark_curr_perp
  ref := calibrateChannel d.ref pre.v_scale_ref pre.v_offset_ref s.dark_curr_ref

/-- Lines 129-132 of `comp_worker.py`: store the calibrated acquisition in
the slot selected by `has_pump`, replacing any previous value. -/
def storeAcq {n : ℕ} (s : WorkerState K n) (m : MeasurementData n)
    (has_pump : Bool) : WorkerState K n :=
  if has_pump then { s with with_pump := some m }
  else { s with without_pump := some m }

/-- The element-wise ratio `(a / r) / (b / s)` whose `log10` gives a dA
sample (`a`,`b` signal samples, `r`,`s` reference samples). -/
def daRatioQ (a r b s : ℚ) : ℚ := (a / r) / (b / s)

/-- Whether computing `-log10((a / r) / (b / s))` on one sample raises no
`FloatingPointError` under numpy trap semantics: each division needs a
nonzero denominator, and the `log10` argument must be positive (zero raises
the `divide` trap, a negative argument the `invalid` trap). -/
def daOkB (a r b s : ℚ) : Bool :=
  decide (r ≠ 0 ∧ s ≠ 0 ∧ b / s ≠ 0 ∧ 0 < daRatioQ a r b s)

/-- Whether the `da_par`/`da_perp` block (lines 167-178 of `comp_worker.py`)
runs without raising a `FloatingPointError` on the given pair. -/
def attemptOkB {n : ℕ} (wp wop : MeasurementData n) : Bool :=
  decide (∀ i, daOkB (wp.par i) (wp.ref i) (wop.par i) (wop.ref i) = true ∧
    daOkB (wp.perp i) (wp.ref i) (wop.perp i) (wop.ref i) = true)

/-- Whether the `da_cd` expression (lines 195-198) runs without raising: its
divisions by the parallel traces need nonzero denominators. -/
def cdOkB {n : ℕ} (wp wop : MeasurementData n) : Bool :=
  decide (∀ i, wp.par i ≠ 0 ∧ wop.par i ≠ 0)

/-- One dA sample: `-log10((a / r) / (b / s))`. -/
def daField (log10 : K → K) (a r b s : ℚ) : K :=
  -log10 (((a : K) / (r : K)) / ((b : K) / (s : K)))

/-- One dCD sample: `(4 / 2.3) * (wpPerp / wpPar - wopPerp / wopPar)`. -/
def cdField (K : Type) [LinearOrderedField K]
    (wpPerp wpPar wopPerp wopPar : ℚ) : K :=
  (4 / 2.3) * ((wpPerp : K) / (wpPar : K) - (wopPerp : K) / (wopPar : K))

/-- The epsilon substitution of the recovery path, lines 181-182:
`ref[ref == 0] = 1e-12`. -/
def substZeros {n : ℕ} (f : Fin n → ℚ) : Fin n → ℚ :=
  fun i => if f i = 0 then 1e-12 else f i

/-- The three derived traces as computed from a given pair of (possibly
substituted) calibrated acquisitions. -/
def derivedOf (log10 : K → K) {n : ℕ} (wp wop : MeasurementData n) :
    Derived K n where
  da_par := fun i => daField log10 (wp.par i) (wp.ref i) (wop.par i) (wop.ref i)
  da_perp := fun i => daField log10 (wp.perp i) (wp.ref i) (wop.perp i) (wop.ref i)
  da_cd := fun i => cdField K (wp.perp i) (wp.par i) (wop.perp i) (wop.par i)

/-- `ComputationWorker.compute_da`, lines 164-199.  First attempt of
`da_par`/`da_perp`; on a `FloatingPointError`, substitute `1e-12` for the
zero samples of both reference traces and recompute once, letting a second
error escape; finally `da_cd`, whose divisions are outside the
`try`/`except` and therefore unguarded.  (The in-place substitution on
`self.with_pump.ref`/`self.without_pump.ref` is modelled functionally by
computing with the substituted traces.) -/
def compute_da (log10 : K → K) {n : ℕ} (wp wop : MeasurementData n) :
    Except FpError (Derived K n) :=
  if attemptOkB wp wop then
    if cdOkB wp wop then .ok (derivedOf log10 wp wop) else .error .fpe
  else
    let wp' : MeasurementData n := { wp with ref := substZeros wp.ref }
    let wop' : MeasurementData n := { wop with ref := substZeros wop.ref }
    if attemptOkB wp' wop' then
      if cdOkB wp' wop' then .ok (derivedOf log10 wp' wop') else .error .fpe
    else .error .fpe

/-- The traces `compute_da` actually derives from: the buffered pair itself
when the first attempt succeeds, the pair with epsilon-substituted
reference traces otherwise (in the Python code the substitution mutates the
buffered arrays in place, so these are the buffered traces at derivation
time). -/
def effWith {n : ℕ} (wp wop : MeasurementData n) : MeasurementData n :=
  if attemptOkB wp wop then wp else { wp with ref := substZeros wp.ref }

/-- Companion of `effWith` for the without-pump member of the pair. -/
def effWithout {n : ℕ} (wp wop : MeasurementData n) : MeasurementData n :=
  if attemptOkB wp wop then wop else { wop with ref := substZeros wop.ref }

/-- The current acquisition's reference trace as it stands when the snapshot
is built (line 140 of `comp_worker.py`).  The local `ref` array is aliased
into the buffered slot (`MeasurementData(par, perp, ref)` stores the same
objects), and the recovery path of `compute_da` mutates both buffered
reference arrays in place (lines 181-182) before `PlotData` is
constructed: so when the first `da_par`/`da_perp` attempt on the pair
`wp`/`wop` raised, the emitted reference trace already carries `1e-12` in
place of its zero samples.  The parallel and perpendicular arrays are never
mutated. -/
def emittedRef {n : ℕ} (wp wop : MeasurementData n) (refT : Fin n → ℚ) :
    Fin n → ℚ :=
  if attemptOkB wp wop then refT else substZeros refT

/-- The `self.count += 1; self.average_count += 1` statements, lines
135-136. -/
def incCounts {n : ℕ} (s : WorkerState K n) : WorkerState K n :=
  { s with count := s.count + 1, average_count := s.average_count + 1 }

/-- `ComputationWorker.update_averages`, lines 201-221.  Note the first
branch tests the measurement counter `count`, not `average_count`. -/
def update_averages {n : ℕ} (s : WorkerState K n) (par perp cd : Fin n → K) :
    WorkerState K n :=
  if s.count = 1 then
    { s with avg_da_par := par, avg_da_perp := perp, avg_da_cd := cd }
  else if s.should_reset_averages then
    { s with avg_da_par := par, avg_da_perp := perp, avg_da_cd := cd,
             average_count := 1, should_reset_averages := false }
  else
    { s with
      avg_da_par := fun i =>
        ((s.average_count : K) - 1) / (s.average_count : K) * s.avg_da_par i +
          1 / (s.average_count : K) * par i,
      avg_da_perp := fun i =>
        ((s.average_count : K) - 1) / (s.average_count : K) * s.avg_da_perp i +
          1 / (s.average_count : K) * perp i,
      avg_da_cd := fun i =>
        ((s.average_count : K) - 1) / (s.average_count : K) * s.avg_da_cd i +
          1 / (s.average_count : K) * cd i }

/-- Recording one derived sample: the counter increments of lines 135-136
followed by `update_averages` (line 139). -/
def recordDerived {n : ℕ} (s : WorkerState K n) (p q r : Fin n → K) :
    WorkerState K n :=
  update_averages (incCounts s) p q r

/-- `ComputationWorker.compute_signals`, lines 101-162: calibrate, store the
acquisition in its slot, and if both slots are populated derive, update the
averages, emit the full snapshot, clear both slots and set the shared stop
flag under the mutex once the measurement budget is reached; otherwise emit
a snapshot with `None` derived fields. -/
def compute_signals (log10 : K → K) {n : ℕ} (s : WorkerState K n)
    (d : RawData n) : Except WorkerErr (StepOut K n) :=
  match s.calib with
  | none => .error .notCalibrated
  | some pre =>
    let m := calibrate s pre d
    let s1 := storeAcq s m d.has_pump
    match s1.with_pump, s1.without_pump with
    | some wp, some wop =>
      match compute_da log10 wp wop with
      | .error e => .error (.fp e)
      | .ok dv =>
        let s2 := recordDerived s1 dv.da_par dv.da_perp dv.da_cd
        let pd : PlotData K n :=
          ⟨m.par, m.perp, emittedRef wp wop m.ref,
           some dv.da_par, some dv.da_perp, some dv.da_cd,
           some s2.avg_da_par, some s2.avg_da_perp, some s2.avg_da_cd⟩
        let s3 := { s2 with with_pump := none, without_pump := none }
        if s3.max_measurements ≤ s3.count then
          .ok ⟨{ s3 with should_stop := true }, [pd],
               [MutexEvent.lock, MutexEvent.setStop, MutexEvent.unlock]⟩
        else
          .ok ⟨s3, [pd], []⟩
    | _, _ =>
      .ok ⟨s1, [⟨m.par, m.perp, m.ref, none, none, none, none, none, none⟩], []⟩

/-- Whether a `compute_signals` call returns normally (no exception escapes
to the caller). -/
def stepOk (log10 : K → K) {n : ℕ} (s : WorkerState K n) (d : RawData n) :
    Bool :=
  match compute_signals log10 s d with
  | .ok _ => true
  | .error _ => false

/-- The state after a `compute_signals` call; on an escaped exception the
observable state of the model is unchanged. -/
def nextState (log10 : K → K) {n : ℕ} (s : WorkerState K n) (d : RawData n) :
    WorkerState K n :=
  match compute_signals log10 s d with
  | .ok o => o.state
  | .error _ => s

/-- The snapshots emitted through `new_data` during one `compute_signals`
call. -/
def emitList (log10 : K → K) {n : ℕ} (s : WorkerState K n) (d : RawData n) :
    List (PlotData K n) :=
  match compute_signals log10 s d with
  | .ok o => o.emitted
  | .error _ => []

/-- The mutex events performed during one `compute_signals` call. -/
def mutexLog (log10 : K → K) {n : ℕ} (s : WorkerState K n) (d : RawData n) :
    List MutexEvent :=
  match compute_signals log10 s d with
  | .ok o => o.events
  | .error _ => []

/-- Whether storing this acquisition leaves both slots populated: the stored
kind's slot always becomes populated, so a pair completes exactly when the
opposite slot is already occupied. -/
def pairCompletes {n : ℕ} (s : WorkerState K n) (d : RawData n) : Bool :=
  if d.has_pump then s.without_pump.isSome else s.with_pump.isSome

/-- Whether the incoming acquisition's own slot is already occupied (the
replacement situation of two same-kind acquisitions in a row). -/
def sameKindOccupied {n : ℕ} (s : WorkerState K n) (d : RawData n) : Bool :=
  if d.has_pump then s.with_pump.isSome else s.without_pump.isSome

/-- Whether a derivation occurred on this call, observed through the
measurement counter increment. -/
def derivedOn (log10 : K → K) {n : ℕ} (s : WorkerState K n) (d : RawData n) :
    Bool :=
  decide ((nextState log10 s d).count = s.count + 1)

/-- The single snapshot of a successful call (junk default otherwise). -/
def stepPlot (log10 : K → K) {n : ℕ} (s : WorkerState K n) (d : RawData n) :
    PlotData K n :=
  match compute_signals log10 s d with
  | .ok o => o.emitted.headD ⟨fun _ => 0, fun _ => 0, fun _ => 0,
      none, none, none, none, none, none⟩
  | .error _ => ⟨fun _ => 0, fun _ => 0, fun _ => 0,
      none, none, none, none, none, none⟩

/-- The calibrated traces of the current call (the raw traces themselves if
no preamble is stored; only used under a stored preamble). -/
def calibOf {n : ℕ} (s : WorkerState K n) (d : RawData n) : MeasurementData n :=
  match s.calib with
  | some pre => calibrate s pre d
  | none => ⟨d.par, d.perp, d.ref⟩

/-- States reachable from a fresh worker by storing a preamble, requesting
average resets and ingesting acquisitions whose processing raises no
exception. -/
inductive Reachable (log10 : K → K) {n : ℕ} : WorkerState K n → Prop where
  | init (maxM : ℕ) (dp dq dr : Option ℚ) :
      Reachable log10 (initState K n maxM dp dq dr)
  | preamble {s : WorkerState K n} (p : Preamble) :
      Reachable log10 s → Reachable log10 (store_preamble s p)
  | reset {s : WorkerState K n} :
      Reachable log10 s → Reachable log10 (reset_averages s)
  | acquire {s : WorkerState K n} (d : RawData n) :
      Reachable log10 s → stepOk log10 s d = true →
      Reachable log10 (nextState log10 s d)

/-- Arithmetic mean of a trace (used to state the dark-current property). -/
def meanQ {n : ℕ} (f : Fin n → ℚ) : ℚ := (∑ i, f i) / n

end Worker

/-- Dummy `log10` over `ℚ` used to instantiate witnesses (the claim theorems
hold for every `log10`). -/
def lgQ : ℚ → ℚ := fun _ => 0

/-- All-ones single-sample trace (the shape used by the repository's own
tests, `tests/test_comp_worker.py`). -/
def onesFn : Fin 1 → ℚ := fun _ => 1

/-- All-ones calibrated acquisition. -/
def onesMD : MeasurementData 1 := ⟨onesFn, onesFn, onesFn⟩

/-- The dummy preamble of `tests/test_comp_worker.py`: unit scales, zero
offsets. -/
def preId : Preamble := ⟨1, 1, 0, 1, 0, 1, 0, 1⟩

/-- All-ones with-pump raw acquisition. -/
def rawW : RawData 1 := ⟨onesFn, onesFn, onesFn, true⟩

/-- All-ones without-pump raw acquisition. -/
def rawWO : RawData 1 := ⟨onesFn, onesFn, onesFn, false⟩

/-- A freshly constructed worker with the preamble stored
(`max_measurements = 5`, no dark currents). -/
def sPre : WorkerState ℚ 1 := store_preamble (initState ℚ 1 5 none none none) preId

/-- The derived traces of an all-ones pair, used by the C2 witness. -/
def dvOnes : Derived ℚ 1 := derivedOf lgQ onesMD onesMD

/-- A pair member with a negative parallel sample and a zero reference
sample. -/
def negMD : MeasurementData 1 := ⟨fun _ => -1, onesFn, fun _ => 0⟩

/-- A pair member whose reference trace is all zeros. -/
def zeroRefMD : MeasurementData 1 := ⟨onesFn, onesFn, fun _ => 0⟩

/-- Iterated recording of the same derived sample (used to state the
n-identical-samples property of the running average). -/
def recordN {K : Type} [LinearOrderedField K] {n : ℕ} (s : WorkerState K n)
    (p q r : Fin n → K) : ℕ → WorkerState K n
  | 0 => s
  | m + 1 => recordDerived (recordN s p q r m) p q r

/-- All-ones derived sample used by the averaging witnesses. -/
def vOne : Fin 1 → ℚ := fun _ => 1

/-- All-twos derived sample used by the averaging witnesses. -/
def vTwo : Fin 1 → ℚ := fun _ => 2

/-- A fresh worker state (no preamble needed for the averaging logic). -/
def sInit : WorkerState ℚ 1 := initState ℚ 1 5 none none none

/-- The state after recording one all-ones derived sample on a fresh
worker. -/
def s1W : WorkerState ℚ 1 := recordDerived sInit vOne vOne vOne

/-- A fresh preambled worker on which `reset_averages` was invoked before any
measurement. -/
def sReset : WorkerState ℚ 1 :=
  reset_averages (store_preamble (initState ℚ 1 5 none none none) preId)

/-- The reset-pending worker after ingesting an all-ones with-pump
acquisition (still no completed measurement). -/
def sReset1 : WorkerState ℚ 1 := nextState lgQ sReset rawW

/-- A worker that completed one measurement and then received a reset
request. -/
def sAfterPair : WorkerState ℚ 1 :=
  reset_averages (nextState lgQ (nextState lgQ sPre rawW) rawWO)

/-- A fresh worker with `max_measurements = 1` and the preamble stored. -/
def sT : WorkerState ℚ 1 := store_preamble (initState ℚ 1 1 none none none) preId

/-- The budget-one worker after ingesting a with-pump acquisition. -/
def sT1 : WorkerState ℚ 1 := nextState lgQ sT rawW

/-- A fresh preambled worker configured with a dark current of 1/2 on the
parallel channel. -/
def sDark : WorkerState ℚ 1 :=
  store_preamble (initState ℚ 1 5 (some (1 / 2)) none none) preId

/-- A calibrated acquisition whose parallel trace is all zeros (reference
nonzero). -/
def parZeroMD : MeasurementData 1 := ⟨fun _ => 0, onesFn, onesFn⟩

/-- A raw without-pump acquisition whose parallel trace is all zeros. -/
def rawParZeroWO : RawData 1 := ⟨fun _ => 0, onesFn, onesFn, false⟩

/-- A raw without-pump acquisition whose reference trace is all zeros (used
to drive the epsilon-recovery path to a successful derivation). -/
def rawZeroRefWO : RawData 1 := ⟨onesFn, onesFn, fun _ => 0, false⟩

/-- The preambled worker after buffering an all-ones with-pump
acquisition. -/
def sC10 : WorkerState ℚ 1 := nextState lgQ sPre rawW

section Helpers

variable {K : Type} {n : ℕ}

@[simp] lemma storeAcq_count (s : WorkerState K n) (m : MeasurementData n) (b : Bool) :
    (storeAcq s m b).count = s.count := by
  unfold storeAcq; split <;> rfl

@[simp] lemma storeAcq_average_count (s : WorkerState K n) (m : MeasurementData n) (b : Bool) :
    (storeAcq s m b).average_count = s.average_count := by
  unfold storeAcq; split <;> rfl

@[simp] lemma storeAcq_max (s : WorkerState K n) (m : MeasurementData n) (b : Bool) :
    (storeAcq s m b).max_measurements = s.max_measurements := by
  unfold storeAcq; split <;> rfl

@[simp] lemma storeAcq_flag (s : WorkerState K n) (m : MeasurementData n) (b : Bool) :
    (storeAcq s m b).should_reset_averages = s.should_reset_averages := by
  unfold storeAcq; split <;> rfl

@[simp] lemma storeAcq_stop (s : WorkerState K n) (m : MeasurementData n) (b : Bool) :
    (storeAcq s m b).should_stop = s.should_stop := by
  unfold storeAcq; split <;> rfl

@[simp] lemma storeAcq_calib (s : WorkerState K n) (m : MeasurementData n) (b : Bool) :
    (storeAcq s m b).calib = s.calib := by
  unfold storeAcq; split <;> rfl

@[simp] lemma storeAcq_avg_par (s : WorkerState K n) (m : MeasurementData n) (b : Bool) :
    (storeAcq s m b).avg_da_par = s.avg_da_par := by
  unfold storeAcq; split <;> rfl

@[simp] lemma storeAcq_avg_perp (s : WorkerState K n) (m : MeasurementData n) (b : Bool) :
    (storeAcq s m b).avg_da_perp = s.avg_da_perp := by
  unfold storeAcq; split <;> rfl

@[simp] lemma storeAcq_avg_cd (s : WorkerState K n) (m : MeasurementData n) (b : Bool) :
    (storeAcq s m b).avg_da_cd = s.avg_da_cd := by
  unfold storeAcq; split <;> rfl

@[simp] lemma storeAcq_with_true (s : WorkerState K n) (m : MeasurementData n) :
    (storeAcq s m true).with_pump = some m := rfl

@[simp] lemma storeAcq_without_true (s : WorkerState K n) (m : MeasurementData n) :
    (storeAcq s m true).without_pump = s.without_pump := rfl

@[simp] lemma storeAcq_with_false (s : WorkerState K n) (m : MeasurementData n) :
    (storeAcq s m false).with_pump = s.with_pump := rfl

@[simp] lemma storeAcq_without_false (s : WorkerState K n) (m : MeasurementData n) :
    (storeAcq s m false).without_pump = some m := rfl

@[simp] lemma incCounts_count (s : WorkerState K n) :
    (incCounts s).count = s.count + 1 := rfl

@[simp] lemma incCounts_average_count (s : WorkerState K n) :
    (incCounts s).average_count = s.average_count + 1 := rfl

@[simp] lemma incCounts_flag (s : WorkerState K n) :
    (incCounts s).should_reset_averages = s.should_reset_averages := rfl

@[simp] lemma incCounts_max (s : WorkerState K n) :
    (incCounts s).max_measurements = s.max_measurements := rfl

@[simp] lemma incCounts_stop (s : WorkerState K n) :
    (incCounts s).should_stop = s.should_stop := rfl

@[simp] lemma incCounts_calib (s : WorkerState K n) :
    (incCounts s).calib = s.calib := rfl

@[simp] lemma update_averages_count [LinearOrderedField K] (s : WorkerState K n) (p q r : Fin n → K) :
    (update_averages s p q r).count = s.count := by
  unfold update_averages
  split
  · rfl
  split <;> rfl

@[simp] lemma update_averages_max [LinearOrderedField K] (s : WorkerState K n) (p q r : Fin n → K) :
    (update_averages s p q r).max_measurements = s.max_measurements := by
  unfold update_averages
  split
  · rfl
  split <;> rfl

@[simp] lemma update_averages_stop [LinearOrderedField K] (s : WorkerState K n) (p q r : Fin n → K) :
    (update_averages s p q r).should_stop = s.should_stop := by
  unfold update_averages
  split
  · rfl
  split <;> rfl

@[simp] lemma update_averages_with [LinearOrderedField K] (s : WorkerState K n) (p q r : Fin n → K) :
    (update_averages s p q r).with_pump = s.with_pump := by
  unfold update_averages
  split
  · rfl
  split <;> rfl

@[simp] lemma update_averages_without [LinearOrderedField K] (s : WorkerState K n) (p q r : Fin n → K) :
    (update_averages s p q r).without_pump = s.without_pump := by
  unfold update_averages
  split
  · rfl
  split <;> rfl

@[simp] lemma update_averages_calib [LinearOrderedField K] (s : WorkerState K n) (p q r : Fin n → K) :
    (update_averages s p q r).calib = s.calib := by
  unfold update_averages
  split
  · rfl
  split <;> rfl

@[simp] lemma recordDerived_count [LinearOrderedField K] (s : WorkerState K n) (p q r : Fin n → K) :
    (recordDerived s p q r).count = s.count + 1 := by
  simp [recordDerived]

@[simp] lemma recordDerived_max [LinearOrderedField K] (s : WorkerState K n) (p q r : Fin n → K) :
    (recordDerived s p q r).max_measurements = s.max_measurements := by
  simp [recordDerived]

@[simp] lemma recordDerived_stop [LinearOrderedField K] (s : WorkerState K n) (p q r : Fin n → K) :
    (recordDerived s p q r).should_stop = s.should_stop := by
  simp [recordDerived]

@[simp] lemma store_preamble_proj (s : WorkerState K n) (p : Preamble) :
    (store_preamble s p).calib = some p ∧
    (store_preamble s p).count = s.count ∧
    (store_preamble s p).average_count = s.average_count ∧
    (store_preamble s p).should_reset_averages = s.should_reset_averages ∧
    (store_preamble s p).max_measurements = s.max_measurements ∧
    (store_preamble s p).with_pump = s.with_pump ∧
    (store_preamble s p).without_pump = s.without_pump ∧
    (store_preamble s p).should_stop = s.should_stop :=
  ⟨rfl, rfl, rfl, rfl, rfl, rfl, rfl, rfl⟩

@[simp] lemma reset_averages_proj (s : WorkerState K n) :
    (reset_averages s).should_reset_averages = true ∧
    (reset_averages s).count = s.count ∧
    (reset_averages s).average_count = s.average_count ∧
    (reset_averages s).max_measurements = s.max_measurements ∧
    (reset_averages s).with_pump = s.with_pump ∧
    (reset_averages s).without_pump = s.without_pump ∧
    (reset_averages s).calib = s.calib ∧
    (reset_averages s).should_stop = s.should_stop :=
  ⟨rfl, rfl, rfl, rfl, rfl, rfl, rfl, rfl⟩

end Helpers

section StepLemmas

variable {K : Type} [LinearOrderedField K] {n : ℕ} {log10 : K → K}

lemma eq_none_of_isSome_false {α : Type} {o : Option α} (h : o.isSome = false) :
    o = none := by
  cases o <;> simp_all

lemma stepOk_calib {s : WorkerState K n} {d : RawData n}
    (h : stepOk log10 s d = true) : ∃ pre, s.calib = some pre := by
  cases hc : s.calib with
  | none => simp [stepOk, compute_signals, hc] at h
  | some pre => exact ⟨pre, rfl⟩

lemma step_pending (s : WorkerState K n) (d : RawData n) (pre : Preamble)
    (hc : s.calib = some pre) (hp : pairCompletes s d = false) :
    compute_signals log10 s d =
      .ok ⟨storeAcq s (calibrate s pre d) d.has_pump,
           [⟨(calibrate s pre d).par, (calibrate s pre d).perp, (calibrate s pre d).ref,
             none, none, none, none, none, none⟩], []⟩ := by
  cases hb : d.has_pump with
  | true =>
    have hw : s.without_pump = none :=
      eq_none_of_isSome_false (by simpa [pairCompletes, hb] using hp)
    simp [compute_signals, hc, storeAcq, hb, hw]
  | false =>
    have hw : s.with_pump = none :=
      eq_none_of_isSome_false (by simpa [pairCompletes, hb] using hp)
    simp [compute_signals, hc, storeAcq, hb, hw]

omit [LinearOrderedField K] in
lemma slots_of_pairCompletes_true (s : WorkerState K n) (d : RawData n)
    (pre : Preamble) (hp : pairCompletes s d = true) :
    ∃ wp wop,
      (storeAcq s (calibrate s pre d) d.has_pump).with_pump = some wp ∧
      (storeAcq s (calibrate s pre d) d.has_pump).without_pump = some wop := by
  cases hb : d.has_pump with
  | true =>
    rcases Option.isSome_iff_exists.mp (by simpa [pairCompletes, hb] using hp)
      with ⟨wop, hw⟩
    exact ⟨calibrate s pre d, wop, by simp [hb], by simp [hb, hw]⟩
  | false =>
    rcases Option.isSome_iff_exists.mp (by simpa [pairCompletes, hb] using hp)
      with ⟨wp, hw⟩
    exact ⟨wp, calibrate s pre d, by simp [hb, hw], by simp [hb]⟩

lemma step_pair_ok (s : WorkerState K n) (d : RawData n) (pre : Preamble)
    (wp wop : MeasurementData n) (dv : Derived K n)
    (hc : s.calib = some pre)
    (hwp : (storeAcq s (calibrate s pre d) d.has_pump).with_pump = some wp)
    (hwop : (storeAcq s (calibrate s pre d) d.has_pump).without_pump = some wop)
    (hda : compute_da log10 wp wop = .ok dv) :
    compute_signals log10 s d =
      (let s2 := recordDerived (storeAcq s (calibrate s pre d) d.has_pump)
        dv.da_par dv.da_perp dv.da_cd
       let pd : PlotData K n :=
        ⟨(calibrate s pre d).par, (calibrate s pre d).perp,
         emittedRef wp wop (calibrate s pre d).ref,
         some dv.da_par, some dv.da_perp, some dv.da_cd,
         some s2.avg_da_par, some s2.avg_da_perp, some s2.avg_da_cd⟩
       if s.max_measurements ≤ s.count + 1 then
         Except.ok ⟨{ s2 with with_pump := none, without_pump := none, should_stop := true }, [pd], [MutexEvent.lock, MutexEvent.setStop, MutexEvent.unlock]⟩
       else
         Except.ok ⟨{ s2 with with_pump := none, without_pump := none }, [pd], []⟩) := by
  simp only [compute_signals, hc]
  rw [hwp, hwop]
  dsimp only
  rw [hda]
  dsimp only
  simp only [recordDerived_max, storeAcq_max, recordDerived_count, storeAcq_count]

lemma step_pair_err (s : WorkerState K n) (d : RawData n) (pre : Preamble)
    (wp wop : MeasurementData n) (e : FpError)
    (hc : s.calib = some pre)
    (hwp : (storeAcq s (calibrate s pre d) d.has_pump).with_pump = some wp)
    (hwop : (storeAcq s (calibrate s pre d) d.has_pump).without_pump = some wop)
    (hda : compute_da log10 wp wop = .error e) :
    compute_signals log10 s d = .error (.fp e) := by
  simp only [compute_signals, hc]
  rw [hwp, hwop]
  dsimp only
  rw [hda]

end StepLemmas

section StepShape

variable {K : Type} [LinearOrderedField K] {n : ℕ} {log10 : K → K}
variable {s : WorkerState K n} {d : RawData n} {pre : Preamble}
variable {wp wop : MeasurementData n} {dv : Derived K n}

lemma stepOk_pending (hc : s.calib = some pre) (hp : pairCompletes s d = false) :
    stepOk log10 s d = true := by
  simp [stepOk, step_pending s d pre hc hp]

lemma nextState_pending (hc : s.calib = some pre) (hp : pairCompletes s d = false) :
    nextState log10 s d = storeAcq s (calibrate s pre d) d.has_pump := by
  simp [nextState, step_pending s d pre hc hp]

lemma emitList_pending (hc : s.calib = some pre) (hp : pairCompletes s d = false) :
    emitList log10 s d =
      [⟨(calibrate s pre d).par, (calibrate s pre d).perp, (calibrate s pre d).ref,
        none, none, none, none, none, none⟩] := by
  simp [emitList, step_pending s d pre hc hp]

lemma mutexLog_pending (hc : s.calib = some pre) (hp : pairCompletes s d = false) :
    mutexLog log10 s d = [] := by
  simp [mutexLog, step_pending s d pre hc hp]

lemma stepOk_pair (hc : s.calib = some pre)
    (hwp : (storeAcq s (calibrate s pre d) d.has_pump).with_pump = some wp)
    (hwop : (storeAcq s (calibrate s pre d) d.has_pump).without_pump = some wop)
    (hda : compute_da log10 wp wop = .ok dv) :
    stepOk log10 s d = true := by
  by_cases h : s.max_measurements ≤ s.count + 1 <;>
    simp [stepOk, step_pair_ok s d pre wp wop dv hc hwp hwop hda, h]

lemma nextState_pair (hc : s.calib = some pre)
    (hwp : (storeAcq s (calibrate s pre d) d.has_pump).with_pump = some wp)
    (hwop : (storeAcq s (calibrate s pre d) d.has_pump).without_pump = some wop)
    (hda : compute_da log10 wp wop = .ok dv) :
    nextState log10 s d =
      (if s.max_measurements ≤ s.count + 1 then
        { recordDerived (storeAcq s (calibrate s pre d) d.has_pump) dv.da_par dv.da_perp dv.da_cd with with_pump := none, without_pump := none, should_stop := true }
      else
        { recordDerived (storeAcq s (calibrate s pre d) d.has_pump) dv.da_par dv.da_perp dv.da_cd with with_pump := none, without_pump := none }) := by
  by_cases h : s.max_measurements ≤ s.count + 1 <;>
    simp [nextState, step_pair_ok s d pre wp wop dv hc hwp hwop hda, h]

lemma mutexLog_pair (hc : s.calib = some pre)
    (hwp : (storeAcq s (calibrate s pre d) d.has_pump).with_pump = some wp)
    (hwop : (storeAcq s (calibrate s pre d) d.has_pump).without_pump = some wop)
    (hda : compute_da log10 wp wop = .ok dv) :
    mutexLog log10 s d =
      (if s.max_measurements ≤ s.count + 1 then
        [MutexEvent.lock, MutexEvent.setStop, MutexEvent.unlock]
      else []) := by
  by_cases h : s.max_measurements ≤ s.count + 1 <;>
    simp [mutexLog, step_pair_ok s d pre wp wop dv hc hwp hwop hda, h]

lemma emitList_pair (hc : s.calib = some pre)
    (hwp : (storeAcq s (calibrate s pre d) d.has_pump).with_pump = some wp)
    (hwop : (storeAcq s (calibrate s pre d) d.has_pump).without_pump = some wop)
    (hda : compute_da log10 wp wop = .ok dv) :
    emitList log10 s d =
      [⟨(calibrate s pre d).par, (calibrate s pre d).perp,
        emittedRef wp wop (calibrate s pre d).ref,
        some dv.da_par, some dv.da_perp, some dv.da_cd,
        some (recordDerived (storeAcq s (calibrate s pre d) d.has_pump) dv.da_par dv.da_perp dv.da_cd).avg_da_par,
        some (recordDerived (storeAcq s (calibrate s pre d) d.has_pump) dv.da_par dv.da_perp dv.da_cd).avg_da_perp,
        some (recordDerived (storeAcq s (calibrate s pre d) d.has_pump) dv.da_par dv.da_perp dv.da_cd).avg_da_cd⟩] := by
  by_cases h : s.max_measurements ≤ s.count + 1 <;>
    simp [emitList, step_pair_ok s d pre wp wop dv hc hwp hwop hda, h]

lemma pair_extract (hok : stepOk log10 s d = true) (hc : s.calib = some pre)
    (hp : pairCompletes s d = true) :
    ∃ wp wop dv,
      (storeAcq s (calibrate s pre d) d.has_pump).with_pump = some wp ∧
      (storeAcq s (calibrate s pre d) d.has_pump).without_pump = some wop ∧
      compute_da log10 wp wop = .ok dv := by
  obtain ⟨wp, wop, hwp, hwop⟩ := slots_of_pairCompletes_true s d pre hp
  cases hda : compute_da log10 wp wop with
  | ok dv => exact ⟨wp, wop, dv, hwp, hwop, hda⟩
  | error e =>
    rw [stepOk, step_pair_err s d pre wp wop e hc hwp hwop hda] at hok
    exact absurd hok (by simp)

end StepShape

section Invariants

variable {K : Type} [LinearOrderedField K] {n : ℕ} {log10 : K → K}

lemma Reachable.atMostOne {s : WorkerState K n} (hr : Reachable log10 s) :
    s.with_pump = none ∨ s.without_pump = none := by
  induction hr with
  | init maxM dp dq dr => exact Or.inl rfl
  | preamble p _ ih => simpa [store_preamble] using ih
  | reset _ ih => simpa [reset_averages] using ih
  | @acquire s d hr hok ih =>
    obtain ⟨pre, hc⟩ := stepOk_calib hok
    cases hp : pairCompletes s d with
    | false =>
      rw [nextState_pending hc hp]
      cases hb : d.has_pump with
      | true =>
        have hw : s.without_pump = none :=
          eq_none_of_isSome_false (by simpa [pairCompletes, hb] using hp)
        right; simp [hb, hw]
      | false =>
        have hw : s.with_pump = none :=
          eq_none_of_isSome_false (by simpa [pairCompletes, hb] using hp)
        left; simp [hb, hw]
    | true =>
      obtain ⟨wp, wop, dv, hwp, hwop, hda⟩ := pair_extract hok hc hp
      rw [nextState_pair hc hwp hwop hda]
      by_cases h : s.max_measurements ≤ s.count + 1 <;> simp [h]

lemma Reachable.avg0_of_count0 {s : WorkerState K n} (hr : Reachable log10 s) :
    s.count = 0 → s.average_count = 0 := by
  induction hr with
  | init maxM dp dq dr => intro _; rfl
  | preamble p _ ih => simpa [store_preamble] using ih
  | reset _ ih => simpa [reset_averages] using ih
  | @acquire s d hr hok ih =>
    obtain ⟨pre, hc⟩ := stepOk_calib hok
    cases hp : pairCompletes s d with
    | false =>
      rw [nextState_pending hc hp]
      simpa using ih
    | true =>
      obtain ⟨wp, wop, dv, hwp, hwop, hda⟩ := pair_extract hok hc hp
      rw [nextState_pair hc hwp hwop hda]
      by_cases h : s.max_measurements ≤ s.count + 1 <;> simp [h]

lemma Reachable.stop_false_of_count_lt {s : WorkerState K n}
    (hr : Reachable log10 s) :
    s.count < s.max_measurements → s.should_stop = false := by
  induction hr with
  | init maxM dp dq dr => intro _; rfl
  | preamble p _ ih => simpa [store_preamble] using ih
  | reset _ ih => simpa [reset_averages] using ih
  | @acquire s d hr hok ih =>
    obtain ⟨pre, hc⟩ := stepOk_calib hok
    cases hp : pairCompletes s d with
    | false =>
      rw [nextState_pending hc hp]
      simpa using ih
    | true =>
      obtain ⟨wp, wop, dv, hwp, hwop, hda⟩ := pair_extract hok hc hp
      rw [nextState_pair hc hwp hwop hda]
      by_cases h : s.max_measurements ≤ s.count + 1
      · simp [h]
      · simp [h]
        intro hlt
        exact ih (by omega)

end Invariants

/-- C1: for every reachable worker state and every acquisition whose
processing returns normally, a derivation occurs on that ingest if and only
if, after storing the acquisition, both the with-pump and without-pump
slots are populated; an acquisition of a kind whose slot is already
occupied replaces the buffered value and never triggers a derivation by
itself; and after every derivation both slots are cleared to empty. -/
theorem pairing_C1 {K : Type} [LinearOrderedField K] {n : ℕ} (log10 : K → K)
    (s : WorkerState K n) (d : RawData n)
    (hr : Reachable log10 s) (hok : stepOk log10 s d = true) :
    derivedOn log10 s d = pairCompletes s d ∧
    (sameKindOccupied s d = true → derivedOn log10 s d = false) ∧
    (derivedOn log10 s d = true →
      (nextState log10 s d).with_pump = none ∧
      (nextState log10 s d).without_pump = none) := by
  obtain ⟨pre, hc⟩ := stepOk_calib hok
  cases hp : pairCompletes s d with
  | false =>
    have hcount : (nextState log10 s d).count = s.count := by
      rw [nextState_pending hc hp]; simp
    have hder : derivedOn log10 s d = false := by
      simp [derivedOn, hcount]
    refine ⟨by rw [hder], fun _ => hder, ?_⟩
    intro h
    rw [hder] at h
    exact absurd h (by simp)
  | true =>
    obtain ⟨wp, wop, dv, hwp, hwop, hda⟩ := pair_extract hok hc hp
    have hnext := nextState_pair hc hwp hwop hda
    have hcount : (nextState log10 s d).count = s.count + 1 := by
      rw [hnext]
      by_cases h : s.max_measurements ≤ s.count + 1 <;> simp [h]
    have hder : derivedOn log10 s d = true := by
      simp [derivedOn, hcount]
    refine ⟨by rw [hder], ?_, ?_⟩
    · intro hso
      exfalso
      cases hb : d.has_pump with
      | true =>
        have h1 : s.with_pump.isSome = true := by
          simpa [sameKindOccupied, hb] using hso
        have h2 : s.without_pump.isSome = true := by
          simpa [pairCompletes, hb] using hp
        rcases hr.atMostOne with h | h <;> simp_all
      | false =>
        have h1 : s.without_pump.isSome = true := by
          simpa [sameKindOccupied, hb] using hso
        have h2 : s.with_pump.isSome = true := by
          simpa [pairCompletes, hb] using hp
        rcases hr.atMostOne with h | h <;> simp_all
    · intro _
      rw [hnext]
      by_cases h : s.max_measurements ≤ s.count + 1 <;> simp [h]

/-- Witness for C1 at a concrete input: a fresh preambled worker ingesting a
with-pump acquisition. -/
theorem pairing_C1_witness :
    derivedOn lgQ sPre rawW = pairCompletes sPre rawW ∧
    (sameKindOccupied sPre rawW = true → derivedOn lgQ sPre rawW = false) ∧
    (derivedOn lgQ sPre rawW = true →
      (nextState lgQ sPre rawW).with_pump = none ∧
      (nextState lgQ sPre rawW).without_pump = none) :=
  pairing_C1 lgQ sPre rawW
    (Reachable.preamble preId (Reachable.init 5 none none none))
    (by with_unfolding_all rfl)

/-- C2: whenever a derivation occurs (a `compute_da` call returns normally),
the derived traces equal, element-wise over the whole trace,
`da_par = -log10((with.par/with.ref)/(without.par/without.ref))`,
`da_perp = -log10((with.perp/with.ref)/(without.perp/without.ref))` and
`da_cd = (4/2.3)*((with.perp/with.par)-(without.perp/without.par))`,
computed from the buffered pair as it stands at derivation time
(`effWith`/`effWithout`; these are the originally buffered traces unless
the recovery path substituted the zero reference samples in place, which in
the Python code mutates the buffered arrays themselves). -/
theorem derivation_C2 {K : Type} [LinearOrderedField K] {n : ℕ} (log10 : K → K)
    (wp wop : MeasurementData n) (dv : Derived K n)
    (h : compute_da log10 wp wop = .ok dv) :
    (attemptOkB wp wop = true → effWith wp wop = wp ∧ effWithout wp wop = wop) ∧
    ∀ i,
      dv.da_par i =
        -log10 ((((effWith wp wop).par i : K) / ((effWith wp wop).ref i : K)) /
          (((effWithout wp wop).par i : K) / ((effWithout wp wop).ref i : K))) ∧
      dv.da_perp i =
        -log10 ((((effWith wp wop).perp i : K) / ((effWith wp wop).ref i : K)) /
          (((effWithout wp wop).perp i : K) / ((effWithout wp wop).ref i : K))) ∧
      dv.da_cd i =
        (4 / 2.3) * (((effWith wp wop).perp i : K) / ((effWith wp wop).par i : K) -
          ((effWithout wp wop).perp i : K) / ((effWithout wp wop).par i : K)) := by
  by_cases h1 : attemptOkB wp wop
  · by_cases h2 : cdOkB wp wop
    · have hd : derivedOf log10 wp wop = dv := by
        simpa [compute_da, h1, h2] using h
      subst hd
      refine ⟨fun _ => ⟨by simp [effWith, h1], by simp [effWithout, h1]⟩, ?_⟩
      intro i
      refine ⟨?_, ?_, ?_⟩ <;>
        simp [derivedOf, daField, cdField, effWith, effWithout, h1]
    · simp [compute_da, h1, h2] at h
  · by_cases h2 : attemptOkB { wp with ref := substZeros wp.ref }
      { wop with ref := substZeros wop.ref }
    · by_cases h3 : cdOkB { wp with ref := substZeros wp.ref }
        { wop with ref := substZeros wop.ref }
      · have hd : derivedOf log10 { wp with ref := substZeros wp.ref }
            { wop with ref := substZeros wop.ref } = dv := by
          simpa [compute_da, h1, h2, h3] using h
        subst hd
        refine ⟨fun hf => absurd hf h1, ?_⟩
        intro i
        refine ⟨?_, ?_, ?_⟩ <;>
          simp [derivedOf, daField, cdField, effWith, effWithout, h1]
      · simp [compute_da, h1, h2, h3] at h
    · simp [compute_da, h1, h2] at h

/-- Witness for C2 at a concrete input: an all-ones pair, whose first
attempt succeeds. -/
theorem derivation_C2_witness :
    compute_da lgQ onesMD onesMD = .ok dvOnes ∧
    ((attemptOkB onesMD onesMD = true →
        effWith onesMD onesMD = onesMD ∧ effWithout onesMD onesMD = onesMD) ∧
     ∀ i,
      dvOnes.da_par i =
        -lgQ ((((effWith onesMD onesMD).par i : ℚ) / ((effWith onesMD onesMD).ref i : ℚ)) /
          (((effWithout onesMD onesMD).par i : ℚ) / ((effWithout onesMD onesMD).ref i : ℚ))) ∧
      dvOnes.da_perp i =
        -lgQ ((((effWith onesMD onesMD).perp i : ℚ) / ((effWith onesMD onesMD).ref i : ℚ)) /
          (((effWithout onesMD onesMD).perp i : ℚ) / ((effWithout onesMD onesMD).ref i : ℚ))) ∧
      dvOnes.da_cd i =
        (4 / 2.3) * (((effWith onesMD onesMD).perp i : ℚ) / ((effWith onesMD onesMD).par i : ℚ) -
          ((effWithout onesMD onesMD).perp i : ℚ) / ((effWithout onesMD onesMD).par i : ℚ))) :=
  ⟨by with_unfolding_all rfl,
   derivation_C2 lgQ onesMD onesMD dvOnes (by with_unfolding_all rfl)⟩

/-- Counterexample to C3 as stated: for `with_pump = (par = -1, perp = 1,
ref = 0)` against an all-ones `without_pump`, a reference sample is exactly
zero and every other involved value is nonzero, yet the recomputation after
the epsilon substitution still raises (the recomputed ratio `-1e12` is
negative, so `log10` traps `invalid`) and the `FloatingPointError` escapes
to the caller instead of finite `da_par`/`da_perp` being returned. -/
theorem epsilon_C3_counterexample :
    negMD.ref 0 = 0 ∧
    (negMD.par 0 ≠ 0 ∧ negMD.perp 0 ≠ 0 ∧
     onesMD.par 0 ≠ 0 ∧ onesMD.perp 0 ≠ 0 ∧ onesMD.ref 0 ≠ 0) ∧
    compute_da lgQ negMD onesMD = .error .fpe :=
  ⟨rfl, by with_unfolding_all decide, by with_unfolding_all rfl⟩

/-- C3 amended: the claim holds once "all other involved values are nonzero"
is strengthened to "all other involved samples are positive (and the
reference samples nonnegative)".  Under that hypothesis, whenever some
reference sample is exactly zero the first `da_par`/`da_perp` attempt
traps, the implementation substitutes `1e-12` for every zero sample of the
two reference traces, recomputes `da_par`/`da_perp` exactly once, and
returns normally (finite values, no error propagated to the caller).  As
stated, with merely nonzero values, the claim is false: a negative sample
makes the recomputed ratio negative, the `log10` traps again and the error
escapes (see the counterexample). -/
theorem epsilon_C3 {K : Type} [LinearOrderedField K] {n : ℕ} (log10 : K → K)
    (wp wop : MeasurementData n)
    (hzero : ∃ i, wp.ref i = 0 ∨ wop.ref i = 0)
    (hpos : ∀ i, 0 < wp.par i ∧ 0 < wp.perp i ∧ 0 < wop.par i ∧ 0 < wop.perp i ∧
      0 ≤ wp.ref i ∧ 0 ≤ wop.ref i) :
    attemptOkB wp wop = false ∧
    compute_da log10 wp wop =
      .ok (derivedOf log10 { wp with ref := substZeros wp.ref }
        { wop with ref := substZeros wop.ref }) := by
  have hsubwp : ∀ i, 0 < substZeros wp.ref i := by
    intro i
    unfold substZeros
    split
    · norm_num
    · exact lt_of_le_of_ne (hpos i).2.2.2.2.1 (Ne.symm (by assumption))
  have hsubwop : ∀ i, 0 < substZeros wop.ref i := by
    intro i
    unfold substZeros
    split
    · norm_num
    · exact lt_of_le_of_ne (hpos i).2.2.2.2.2 (Ne.symm (by assumption))
  have h1 : attemptOkB wp wop = false := by
    obtain ⟨i, hi⟩ := hzero
    rw [attemptOkB, decide_eq_false_iff_not]
    intro hall
    obtain ⟨hA, _⟩ := hall i
    rw [daOkB, decide_eq_true_eq] at hA
    obtain ⟨hr, hs, _, _⟩ := hA
    cases hi with
    | inl h0 => exact hr h0
    | inr h0 => exact hs h0
  have h2 : attemptOkB { wp with ref := substZeros wp.ref }
      { wop with ref := substZeros wop.ref } = true := by
    rw [attemptOkB, decide_eq_true_eq]
    intro i
    dsimp only
    constructor
    · rw [daOkB, decide_eq_true_eq]
      refine ⟨(hsubwp i).ne', (hsubwop i).ne',
        (div_pos (hpos i).2.2.1 (hsubwop i)).ne', ?_⟩
      exact div_pos (div_pos (hpos i).1 (hsubwp i))
        (div_pos (hpos i).2.2.1 (hsubwop i))
    · rw [daOkB, decide_eq_true_eq]
      refine ⟨(hsubwp i).ne', (hsubwop i).ne',
        (div_pos (hpos i).2.2.2.1 (hsubwop i)).ne', ?_⟩
      exact div_pos (div_pos (hpos i).2.1 (hsubwp i))
        (div_pos (hpos i).2.2.2.1 (hsubwop i))
  have h3 : cdOkB { wp with ref := substZeros wp.ref }
      { wop with ref := substZeros wop.ref } = true := by
    rw [cdOkB, decide_eq_true_eq]
    intro i
    exact ⟨(hpos i).1.ne', (hpos i).2.2.1.ne'⟩
  exact ⟨h1, by simp [compute_da, h1, h2, h3]⟩

/-- Witness for C3 (amended) at a concrete input: an all-ones pair whose
with-pump reference trace is all zeros. -/
theorem epsilon_C3_witness :
    attemptOkB zeroRefMD onesMD = false ∧
    compute_da lgQ zeroRefMD onesMD =
      .ok (derivedOf lgQ { zeroRefMD with ref := substZeros zeroRefMD.ref }
        { onesMD with ref := substZeros onesMD.ref }) :=
  epsilon_C3 lgQ zeroRefMD onesMD ⟨0, Or.inl rfl⟩ (by with_unfolding_all decide)

lemma update_averages_first {K : Type} [LinearOrderedField K] {n : ℕ}
    (s : WorkerState K n) (p q r : Fin n → K) (h1 : s.count = 1) :
    update_averages s p q r =
      { s with avg_da_par := p, avg_da_perp := q, avg_da_cd := r } := by
  unfold update_averages
  rw [if_pos h1]

lemma update_averages_reset {K : Type} [LinearOrderedField K] {n : ℕ}
    (s : WorkerState K n) (p q r : Fin n → K) (h1 : s.count ≠ 1)
    (h2 : s.should_reset_averages = true) :
    update_averages s p q r =
      { s with avg_da_par := p, avg_da_perp := q, avg_da_cd := r,
               average_count := 1, should_reset_averages := false } := by
  unfold update_averages
  rw [if_neg h1, if_pos h2]

lemma update_averages_else {K : Type} [LinearOrderedField K] {n : ℕ}
    (s : WorkerState K n) (p q r : Fin n → K) (h1 : s.count ≠ 1)
    (h2 : s.should_reset_averages = false) :
    update_averages s p q r =
      { s with
        avg_da_par := fun i =>
          ((s.average_count : K) - 1) / (s.average_count : K) * s.avg_da_par i +
            1 / (s.average_count : K) * p i,
        avg_da_perp := fun i =>
          ((s.average_count : K) - 1) / (s.average_count : K) * s.avg_da_perp i +
            1 / (s.average_count : K) * q i,
        avg_da_cd := fun i =>
          ((s.average_count : K) - 1) / (s.average_count : K) * s.avg_da_cd i +
            1 / (s.average_count : K) * r i } := by
  unfold update_averages
  rw [if_neg h1, if_neg (by simp [h2])]

lemma recordN_state {K : Type} [LinearOrderedField K] {n : ℕ}
    (s : WorkerState K n) (p q r : Fin n → K)
    (h0 : s.count = 0) (ha : s.average_count = 0)
    (hf : s.should_reset_averages = false) :
    ∀ m, (recordN s p q r m).count = m ∧
      (recordN s p q r m).average_count = m ∧
      (recordN s p q r m).should_reset_averages = false ∧
      (1 ≤ m →
        (recordN s p q r m).avg_da_par = p ∧
        (recordN s p q r m).avg_da_perp = q ∧
        (recordN s p q r m).avg_da_cd = r) := by
  intro m
  induction m with
  | zero => simpa [recordN] using ⟨h0, ha, hf⟩
  | succ m ih =>
    obtain ⟨hc, hac, hfl, havg⟩ := ih
    have hstep : recordN s p q r (m + 1) =
        update_averages (incCounts (recordN s p q r m)) p q r := rfl
    by_cases hm : m = 0
    · subst hm
      rw [hstep, update_averages_first _ p q r (by simp [hc])]
      refine ⟨by simp [hc], by simp [hac], by simp [hfl], fun _ => ⟨rfl, rfl, rfl⟩⟩
    · obtain ⟨hp1, hq1, hr1⟩ := havg (by omega)
      have hk : ((m : K) + 1) ≠ 0 := Nat.cast_add_one_ne_zero m
      rw [hstep, update_averages_else _ p q r (by simp [hc]; omega) (by simp [hfl])]
      refine ⟨by simp [hc], by simp [hac], by simp [hfl], fun _ => ⟨?_, ?_, ?_⟩⟩
      · funext i
        simp only [incCounts, hac, hp1]
        push_cast
        field_simp
        ring
      · funext i
        simp only [incCounts, hac, hq1]
        push_cast
        field_simp
        ring
      · funext i
        simp only [incCounts, hac, hr1]
        push_cast
        field_simp
        ring

/-- C4: the first sample contributing to the current average epoch (session
start, or a pending reset) sets the running average equal to that sample
exactly; every later sample updates it by
`avg = ((average_count - 1)/average_count) * avg + (1/average_count) * new`
(with `average_count` the post-increment count); consequently, starting
from a fresh session with no reset pending, after `m ≥ 1` identical derived
samples the running average equals that sample exactly, and after two
samples `v1`, `v2` it equals `(v1 + v2)/2` — independently for `da_par`,
`da_perp` and `da_cd`. -/
theorem averaging_C4 {K : Type} [LinearOrderedField K] {n : ℕ} :
    (∀ (s : WorkerState K n) (p q r : Fin n → K),
      (s.count = 0 ∨ s.should_reset_averages = true) →
      (recordDerived s p q r).avg_da_par = p ∧
      (recordDerived s p q r).avg_da_perp = q ∧
      (recordDerived s p q r).avg_da_cd = r) ∧
    (∀ (s : WorkerState K n) (p q r : Fin n → K),
      s.count ≠ 0 → s.should_reset_averages = false →
      (recordDerived s p q r).avg_da_par = (fun i =>
        (((s.average_count + 1 : ℕ) : K) - 1) / ((s.average_count + 1 : ℕ) : K) *
          s.avg_da_par i + 1 / ((s.average_count + 1 : ℕ) : K) * p i) ∧
      (recordDerived s p q r).avg_da_perp = (fun i =>
        (((s.average_count + 1 : ℕ) : K) - 1) / ((s.average_count + 1 : ℕ) : K) *
          s.avg_da_perp i + 1 / ((s.average_count + 1 : ℕ) : K) * q i) ∧
      (recordDerived s p q r).avg_da_cd = (fun i =>
        (((s.average_count + 1 : ℕ) : K) - 1) / ((s.average_count + 1 : ℕ) : K) *
          s.avg_da_cd i + 1 / ((s.average_count + 1 : ℕ) : K) * r i)) ∧
    (∀ (s : WorkerState K n) (p q r : Fin n → K) (m : ℕ),
      s.count = 0 → s.average_count = 0 → s.should_reset_averages = false →
      1 ≤ m →
      (recordN s p q r m).avg_da_par = p ∧
      (recordN s p q r m).avg_da_perp = q ∧
      (recordN s p q r m).avg_da_cd = r) ∧
    (∀ (s : WorkerState K n) (p1 q1 r1 p2 q2 r2 : Fin n → K),
      s.count = 0 → s.average_count = 0 → s.should_reset_averages = false →
      (recordDerived (recordDerived s p1 q1 r1) p2 q2 r2).avg_da_par =
        (fun i => (p1 i + p2 i) / 2) ∧
      (recordDerived (recordDerived s p1 q1 r1) p2 q2 r2).avg_da_perp =
        (fun i => (q1 i + q2 i) / 2) ∧
      (recordDerived (recordDerived s p1 q1 r1) p2 q2 r2).avg_da_cd =
        (fun i => (r1 i + r2 i) / 2)) := by
  refine ⟨?_, ?_, ?_, ?_⟩
  · intro s p q r h
    by_cases h0 : s.count = 0
    · rw [recordDerived, update_averages_first _ p q r (by simp [h0])]
      exact ⟨rfl, rfl, rfl⟩
    · have hflag : s.should_reset_averages = true := by tauto
      rw [recordDerived, update_averages_reset _ p q r (by simp; omega)
        (by simp [hflag])]
      exact ⟨rfl, rfl, rfl⟩
  · intro s p q r h0 hflag
    rw [recordDerived, update_averages_else _ p q r (by simp; omega)
      (by simp [hflag])]
    exact ⟨rfl, rfl, rfl⟩
  · intro s p q r m h0 ha hf hm
    exact (recordN_state s p q r h0 ha hf m).2.2.2 hm
  · intro s p1 q1 r1 p2 q2 r2 h0 ha hf
    have st := recordN_state s p1 q1 r1 h0 ha hf 1
    have hrw : recordN s p1 q1 r1 1 = recordDerived s p1 q1 r1 := by
      simp [recordN]
    rw [hrw] at st
    obtain ⟨hc1, ha1, hf1, havg⟩ := st
    obtain ⟨hp1, hq1, hr1⟩ := havg le_rfl
    rw [recordDerived, update_averages_else _ p2 q2 r2 (by simp [hc1])
      (by simp [hf1])]
    refine ⟨?_, ?_, ?_⟩
    · funext i
      simp only [incCounts, ha1, hp1]
      norm_num
      ring
    · funext i
      simp only [incCounts, ha1, hq1]
      norm_num
      ring
    · funext i
      simp only [incCounts, ha1, hr1]
      norm_num
      ring

/-- Witness for C4 at concrete inputs: every clause instantiated on a fresh
worker with samples of value 1 and 2. -/
theorem averaging_C4_witness :
    ((recordDerived sInit vOne vOne vOne).avg_da_par = vOne ∧
     (recordDerived sInit vOne vOne vOne).avg_da_perp = vOne ∧
     (recordDerived sInit vOne vOne vOne).avg_da_cd = vOne) ∧
    ((recordDerived s1W vTwo vTwo vTwo).avg_da_par = (fun i =>
        (((s1W.average_count + 1 : ℕ) : ℚ) - 1) / ((s1W.average_count + 1 : ℕ) : ℚ) *
          s1W.avg_da_par i + 1 / ((s1W.average_count + 1 : ℕ) : ℚ) * vTwo i) ∧
     (recordDerived s1W vTwo vTwo vTwo).avg_da_perp = (fun i =>
        (((s1W.average_count + 1 : ℕ) : ℚ) - 1) / ((s1W.average_count + 1 : ℕ) : ℚ) *
          s1W.avg_da_perp i + 1 / ((s1W.average_count + 1 : ℕ) : ℚ) * vTwo i) ∧
     (recordDerived s1W vTwo vTwo vTwo).avg_da_cd = (fun i =>
        (((s1W.average_count + 1 : ℕ) : ℚ) - 1) / ((s1W.average_count + 1 : ℕ) : ℚ) *
          s1W.avg_da_cd i + 1 / ((s1W.average_count + 1 : ℕ) : ℚ) * vTwo i)) ∧
    ((recordN sInit vOne vOne vOne 3).avg_da_par = vOne ∧
     (recordN sInit vOne vOne vOne 3).avg_da_perp = vOne ∧
     (recordN sInit vOne vOne vOne 3).avg_da_cd = vOne) ∧
    ((recordDerived (recordDerived sInit vOne vOne vOne) vTwo vTwo vTwo).avg_da_par =
        (fun i => (vOne i + vTwo i) / 2) ∧
     (recordDerived (recordDerived sInit vOne vOne vOne) vTwo vTwo vTwo).avg_da_perp =
        (fun i => (vOne i + vTwo i) / 2) ∧
     (recordDerived (recordDerived sInit vOne vOne vOne) vTwo vTwo vTwo).avg_da_cd =
        (fun i => (vOne i + vTwo i) / 2)) :=
  ⟨averaging_C4.1 sInit vOne vOne vOne (Or.inl rfl),
   averaging_C4.2.1 s1W vTwo vTwo vTwo (by decide) rfl,
   averaging_C4.2.2.1 sInit vOne vOne vOne 3 rfl rfl rfl (by decide),
   averaging_C4.2.2.2 sInit vOne vOne vOne vTwo vTwo vTwo rfl rfl rfl⟩

/-- Counterexample to C5 as stated: when the reset is requested before the
first measurement, the next derived sample does replace the running average
and the average count restarts at 1, but the pending-reset flag is NOT
cleared (the `count == 1` branch of `update_averages` wins and never
touches the flag), contradicting the claim's "and then clears the
pending-reset flag ... regardless of how many measurements preceded the
reset request". -/
theorem reset_C5_counterexample :
    (nextState lgQ sReset1 rawWO).average_count = 1 ∧
    (nextState lgQ sReset1 rawWO).count = 1 ∧
    (nextState lgQ sReset1 rawWO).should_reset_averages = true := by
  refine ⟨?_, ?_, ?_⟩ <;> with_unfolding_all rfl

/-- C5 amended: for every reachable state with the pending-reset flag set,
the next derived sample `v` replaces the running average outright (the
average then equals `v` exactly) and the average count restarts at 1; the
pending-reset flag is cleared provided at least one measurement preceded
the reset request, but when the reset was requested before the first
measurement the flag remains set (and is only consumed by a later sample). -/
theorem reset_C5 {K : Type} [LinearOrderedField K] {n : ℕ} (log10 : K → K)
    (s : WorkerState K n) (p q r : Fin n → K)
    (hr : Reachable log10 s) (hflag : s.should_reset_averages = true) :
    (recordDerived s p q r).avg_da_par = p ∧
    (recordDerived s p q r).avg_da_perp = q ∧
    (recordDerived s p q r).avg_da_cd = r ∧
    (recordDerived s p q r).average_count = 1 ∧
    (1 ≤ s.count → (recordDerived s p q r).should_reset_averages = false) ∧
    (s.count = 0 → (recordDerived s p q r).should_reset_averages = true) := by
  by_cases h0 : s.count = 0
  · have ha : s.average_count = 0 := hr.avg0_of_count0 h0
    rw [recordDerived, update_averages_first _ p q r (by simp [h0])]
    exact ⟨rfl, rfl, rfl, by simp [incCounts, ha],
      fun h => absurd h (by omega), fun _ => by simp [incCounts, hflag]⟩
  · rw [recordDerived, update_averages_reset _ p q r
      (by simpa [incCounts] using h0) (by simp [incCounts, hflag])]
    exact ⟨rfl, rfl, rfl, rfl, fun _ => rfl, fun h => absurd h h0⟩

/-- Witness for C5 (amended) at a concrete input: one completed measurement,
then a reset request, then one more derived sample. -/
theorem reset_C5_witness :
    (recordDerived sAfterPair vTwo vTwo vTwo).avg_da_par = vTwo ∧
    (recordDerived sAfterPair vTwo vTwo vTwo).avg_da_perp = vTwo ∧
    (recordDerived sAfterPair vTwo vTwo vTwo).avg_da_cd = vTwo ∧
    (recordDerived sAfterPair vTwo vTwo vTwo).average_count = 1 ∧
    (1 ≤ sAfterPair.count →
      (recordDerived sAfterPair vTwo vTwo vTwo).should_reset_averages = false) ∧
    (sAfterPair.count = 0 →
      (recordDerived sAfterPair vTwo vTwo vTwo).should_reset_averages = true) :=
  reset_C5 lgQ sAfterPair vTwo vTwo vTwo
    (Reachable.reset (Reachable.acquire rawWO
      (Reachable.acquire rawW
        (Reachable.preamble preId (Reachable.init 5 none none none))
        (by with_unfolding_all rfl))
      (by with_unfolding_all rfl)))
    rfl

/-- C6: the shared should-stop flag remains false in every reachable state
whose measurement count is below `max_measurements`; and whenever a
successfully processed acquisition completes a pair that brings the count
to `max_measurements` (or beyond), the worker sets the shared flag to true
while holding the mutual-exclusion guard (the call's mutex trace is
lock, set, unlock). -/
theorem termination_C6 {K : Type} [LinearOrderedField K] {n : ℕ}
    (log10 : K → K) :
    (∀ s : WorkerState K n, Reachable log10 s →
      s.count < s.max_measurements → s.should_stop = false) ∧
    (∀ (s : WorkerState K n) (d : RawData n),
      stepOk log10 s d = true → pairCompletes s d = true →
      s.max_measurements ≤ s.count + 1 →
      (nextState log10 s d).should_stop = true ∧
      mutexLog log10 s d =
        [MutexEvent.lock, MutexEvent.setStop, MutexEvent.unlock]) := by
  refine ⟨fun s hr => hr.stop_false_of_count_lt, ?_⟩
  intro s d hok hp hmax
  obtain ⟨pre, hc⟩ := stepOk_calib hok
  obtain ⟨wp, wop, dv, hwp, hwop, hda⟩ := pair_extract hok hc hp
  constructor
  · rw [nextState_pair hc hwp hwop hda, if_pos hmax]
  · rw [mutexLog_pair hc hwp hwop hda, if_pos hmax]

/-- Witness for C6 at concrete inputs: with `max_measurements = 1`, the flag
is false before any pair and becomes true (under the mutex) on the first
completed pair. -/
theorem termination_C6_witness :
    ((initState ℚ 1 1 none none none).should_stop = false) ∧
    ((nextState lgQ sT1 rawWO).should_stop = true ∧
     mutexLog lgQ sT1 rawWO =
       [MutexEvent.lock, MutexEvent.setStop, MutexEvent.unlock]) :=
  ⟨(termination_C6 lgQ).1 _ (Reachable.init 1 none none none) (by decide),
   (termination_C6 lgQ).2 sT1 rawWO (by with_unfolding_all rfl)
     (by with_unfolding_all rfl) (by with_unfolding_all decide)⟩

/-- C7: every raw acquisition processed after a calibration record is stored
has each channel calibrated as `value * scale + offset` element-wise, with
the configured dark-current constant then subtracted if and only if one was
supplied (independently per channel); the emitted snapshot carries exactly
the calibrated parallel and perpendicular traces, and — on calls where no
pair completes, so no epsilon recovery can have mutated the aliased
reference array — the calibrated reference trace as well; and a channel
calibrating to mean 1 with a configured dark current of 1/2 yields a
calibrated mean of 1/2. -/
theorem calibration_C7 {K : Type} [LinearOrderedField K] {n : ℕ}
    (log10 : K → K) :
    (∀ (raw : Fin n → ℚ) (sc off dc : ℚ) (i : Fin n),
      calibrateChannel raw sc off (some dc) i = raw i * sc + off - dc) ∧
    (∀ (raw : Fin n → ℚ) (sc off : ℚ) (i : Fin n),
      calibrateChannel raw sc off none i = raw i * sc + off) ∧
    (∀ (s : WorkerState K n) (d : RawData n) (pre : Preamble),
      s.calib = some pre → stepOk log10 s d = true →
      (stepPlot log10 s d).par =
        calibrateChannel d.par pre.v_scale_par pre.v_offset_par s.dark_curr_par ∧
      (stepPlot log10 s d).perp =
        calibrateChannel d.perp pre.v_scale_perp pre.v_offset_perp s.dark_curr_perp ∧
      (pairCompletes s d = false →
        (stepPlot log10 s d).ref =
          calibrateChannel d.ref pre.v_scale_ref pre.v_offset_ref s.dark_curr_ref)) ∧
    (∀ (raw : Fin n → ℚ) (sc off : ℚ), 0 < n →
      meanQ (calibrateChannel raw sc off none) = 1 →
      meanQ (calibrateChannel raw sc off (some (1 / 2))) = 1 / 2) := by
  refine ⟨fun raw sc off dc i => rfl, fun raw sc off i => rfl, ?_, ?_⟩
  · intro s d pre hc hok
    cases hp : pairCompletes s d with
    | false =>
      refine ⟨?_, ?_, fun _ => ?_⟩ <;>
        simp [stepPlot, step_pending s d pre hc hp, calibrate]
    | true =>
      obtain ⟨wp, wop, dv, hwp, hwop, hda⟩ := pair_extract hok hc hp
      refine ⟨?_, ?_, fun hfalse => by simp [hp] at hfalse⟩ <;>
        (by_cases h : s.max_measurements ≤ s.count + 1 <;>
          simp [stepPlot, step_pair_ok s d pre wp wop dv hc hwp hwop hda, h,
            calibrate])
  · intro raw sc off hn hmean
    have hne : (n : ℚ) ≠ 0 := Nat.cast_ne_zero.mpr hn.ne'
    have hsum : (∑ i, calibrateChannel raw sc off none i) = (n : ℚ) := by
      rw [meanQ, div_eq_one_iff_eq hne] at hmean
      exact hmean
    have hpt : (∑ i, calibrateChannel raw sc off (some (1 / 2)) i) =
        (∑ i, calibrateChannel raw sc off none i) - (n : ℚ) * (1 / 2) := by
      rw [show (∑ i, calibrateChannel raw sc off (some (1 / 2)) i) =
          (∑ i, (calibrateChannel raw sc off none i - 1 / 2)) from
        Finset.sum_congr rfl (fun i _ => rfl)]
      rw [Finset.sum_sub_distrib, Finset.sum_const, Finset.card_univ,
        Fintype.card_fin, nsmul_eq_mul]
    rw [meanQ, hpt, hsum]
    field_simp
    ring

/-- Witness for C7 at concrete inputs: unit scale, zero offset, dark current
1/2 on the parallel channel, all-ones raw acquisition (a pending call, so
the reference clause applies). -/
theorem calibration_C7_witness :
    (calibrateChannel onesFn 1 0 (some (1 / 2)) 0 = onesFn 0 * 1 + 0 - 1 / 2) ∧
    (calibrateChannel onesFn 1 0 none 0 = onesFn 0 * 1 + 0) ∧
    ((stepPlot lgQ sDark rawW).par =
        calibrateChannel rawW.par preId.v_scale_par preId.v_offset_par
          sDark.dark_curr_par ∧
     (stepPlot lgQ sDark rawW).perp =
        calibrateChannel rawW.perp preId.v_scale_perp preId.v_offset_perp
          sDark.dark_curr_perp ∧
     (pairCompletes sDark rawW = false →
       (stepPlot lgQ sDark rawW).ref =
         calibrateChannel rawW.ref preId.v_scale_ref preId.v_offset_ref
           sDark.dark_curr_ref)) ∧
    meanQ (calibrateChannel onesFn 1 0 (some (1 / 2))) = 1 / 2 :=
  ⟨(@calibration_C7 ℚ _ 1 lgQ).1 onesFn 1 0 (1 / 2) 0,
   (@calibration_C7 ℚ _ 1 lgQ).2.1 onesFn 1 0 0,
   (calibration_C7 lgQ).2.2.1 sDark rawW preId rfl (by with_unfolding_all rfl),
   (@calibration_C7 ℚ _ 1 lgQ).2.2.2 onesFn 1 0 (by decide)
     (by with_unfolding_all decide)⟩

/-- C8: ingesting an acquisition before any calibration record has been
stored fails with the not-calibrated error (in the Python code a
`TypeError` from multiplying the raw array by the `None` scale factor,
raised before the buffering lines run), so the call emits nothing and no
acquisition is buffered: the erroring call produces no successor state.
There is no retry path. -/
theorem uncalibrated_C8 {K : Type} [LinearOrderedField K] {n : ℕ}
    (log10 : K → K) (s : WorkerState K n) (d : RawData n)
    (h : s.calib = none) :
    compute_signals log10 s d = .error .notCalibrated ∧
    stepOk log10 s d = false ∧
    nextState log10 s d = s ∧
    emitList log10 s d = [] := by
  have hcs : compute_signals log10 s d = .error .notCalibrated := by
    simp [compute_signals, h]
  exact ⟨hcs, by simp [stepOk, hcs], by simp [nextState, hcs],
    by simp [emitList, hcs]⟩

/-- Witness for C8 at a concrete input: a fresh worker with no preamble. -/
theorem uncalibrated_C8_witness :
    compute_signals lgQ sInit rawW = .error .notCalibrated ∧
    stepOk lgQ sInit rawW = false ∧
    nextState lgQ sInit rawW = sInit ∧
    emitList lgQ sInit rawW = [] :=
  uncalibrated_C8 lgQ sInit rawW rfl

/-- Counterexample to C9 as stated: with an all-ones with-pump acquisition
buffered, ingesting a without-pump acquisition whose calibrated reference
trace is all zeros takes the epsilon-recovery path of `compute_da`, which
succeeds — but the emitted snapshot's reference trace is the
in-place-substituted `1e-12` trace, not the calibrated (all-zero) reference
trace, refuting the claim's "containing the calibrated
parallel/perpendicular/reference traces". -/
theorem snapshot_C9_counterexample :
    stepOk lgQ sC10 rawZeroRefWO = true ∧
    pairCompletes sC10 rawZeroRefWO = true ∧
    (calibOf sC10 rawZeroRefWO).ref 0 = 0 ∧
    (stepPlot lgQ sC10 rawZeroRefWO).ref 0 = 1e-12 ∧
    ¬((stepPlot lgQ sC10 rawZeroRefWO).ref 0 = (calibOf sC10 rawZeroRefWO).ref 0) := by
  refine ⟨?_, ?_, ?_, ?_, ?_⟩
  · with_unfolding_all rfl
  · with_unfolding_all rfl
  · with_unfolding_all rfl
  · with_unfolding_all rfl
  · with_unfolding_all decide

/-- C9 (amended): every call that ingests an acquisition and returns
normally emits exactly one snapshot; the snapshot carries the calibrated
parallel and perpendicular traces of the current acquisition, and its
reference trace as it stands when the snapshot is built — the calibrated
reference trace on calls where no pair completes, and on derivations the
calibrated reference trace unless the epsilon-recovery path ran, in which
case its zero samples already carry `1e-12` (`emittedRef`, matching the
in-place mutation of the aliased array); the three derived dA/CD fields and
the three running-average fields are present if and only if a pair
completed on that call (absent/None otherwise). -/
theorem snapshot_C9 {K : Type} [LinearOrderedField K] {n : ℕ} (log10 : K → K)
    (s : WorkerState K n) (d : RawData n) (pre : Preamble)
    (hc : s.calib = some pre) (hok : stepOk log10 s d = true) :
    emitList log10 s d = [stepPlot log10 s d] ∧
    (stepPlot log10 s d).par = (calibOf s d).par ∧
    (stepPlot log10 s d).perp = (calibOf s d).perp ∧
    (pairCompletes s d = false →
      (stepPlot log10 s d).ref = (calibOf s d).ref) ∧
    (pairCompletes s d = true → ∃ wp wop,
      (storeAcq s (calibrate s pre d) d.has_pump).with_pump = some wp ∧
      (storeAcq s (calibrate s pre d) d.has_pump).without_pump = some wop ∧
      (stepPlot log10 s d).ref = emittedRef wp wop (calibOf s d).ref) ∧
    (stepPlot log10 s d).da_par.isSome = pairCompletes s d ∧
    (stepPlot log10 s d).da_perp.isSome = pairCompletes s d ∧
    (stepPlot log10 s d).da_cd.isSome = pairCompletes s d ∧
    (stepPlot log10 s d).avg_da_par.isSome = pairCompletes s d ∧
    (stepPlot log10 s d).avg_da_perp.isSome = pairCompletes s d ∧
    (stepPlot log10 s d).avg_da_cd.isSome = pairCompletes s d := by
  cases hp : pairCompletes s d with
  | false =>
    refine ⟨?_, ?_, ?_, fun _ => ?_, fun htrue => by simp [hp] at htrue,
        ?_, ?_, ?_, ?_, ?_, ?_⟩ <;>
      simp [stepPlot, emitList, step_pending s d pre hc hp, calibOf, hc]
  | true =>
    obtain ⟨wp, wop, dv, hwp, hwop, hda⟩ := pair_extract hok hc hp
    refine ⟨?_, ?_, ?_, fun hfalse => by simp [hp] at hfalse,
        fun _ => ⟨wp, wop, hwp, hwop, ?_⟩, ?_, ?_, ?_, ?_, ?_, ?_⟩ <;>
      (by_cases h : s.max_measurements ≤ s.count + 1 <;>
        simp [stepPlot, emitList,
          step_pair_ok s d pre wp wop dv hc hwp hwop hda, h, calibOf, hc])

/-- Witness for C9 (amended) at a concrete input: the recovery-path call of
the counterexample — a buffered all-ones with-pump acquisition and an
incoming without-pump acquisition with an all-zero reference trace. -/
theorem snapshot_C9_witness :
    emitList lgQ sC10 rawZeroRefWO = [stepPlot lgQ sC10 rawZeroRefWO] ∧
    (stepPlot lgQ sC10 rawZeroRefWO).par = (calibOf sC10 rawZeroRefWO).par ∧
    (stepPlot lgQ sC10 rawZeroRefWO).perp = (calibOf sC10 rawZeroRefWO).perp ∧
    (pairCompletes sC10 rawZeroRefWO = false →
      (stepPlot lgQ sC10 rawZeroRefWO).ref = (calibOf sC10 rawZeroRefWO).ref) ∧
    (pairCompletes sC10 rawZeroRefWO = true → ∃ wp wop,
      (storeAcq sC10 (calibrate sC10 preId rawZeroRefWO)
        rawZeroRefWO.has_pump).with_pump = some wp ∧
      (storeAcq sC10 (calibrate sC10 preId rawZeroRefWO)
        rawZeroRefWO.has_pump).without_pump = some wop ∧
      (stepPlot lgQ sC10 rawZeroRefWO).ref =
        emittedRef wp wop (calibOf sC10 rawZeroRefWO).ref) ∧
    (stepPlot lgQ sC10 rawZeroRefWO).da_par.isSome =
      pairCompletes sC10 rawZeroRefWO ∧
    (stepPlot lgQ sC10 rawZeroRefWO).da_perp.isSome =
      pairCompletes sC10 rawZeroRefWO ∧
    (stepPlot lgQ sC10 rawZeroRefWO).da_cd.isSome =
      pairCompletes sC10 rawZeroRefWO ∧
    (stepPlot lgQ sC10 rawZeroRefWO).avg_da_par.isSome =
      pairCompletes sC10 rawZeroRefWO ∧
    (stepPlot lgQ sC10 rawZeroRefWO).avg_da_perp.isSome =
      pairCompletes sC10 rawZeroRefWO ∧
    (stepPlot lgQ sC10 rawZeroRefWO).avg_da_cd.isSome =
      pairCompletes sC10 rawZeroRefWO :=
  snapshot_C9 lgQ sC10 rawZeroRefWO preId (by with_unfolding_all rfl)
    (by with_unfolding_all rfl)

/-- C10: a zero sample in a parallel trace (with all reference samples
nonzero) makes the derivation raise an unrecovered floating-point error
that escapes to the caller — for a zero in `with_pump.par` the ratio is
zero and `log10` traps, for a zero in `without_pump.par` the outer division
traps; the epsilon recovery substitutes only in the reference traces (the
parallel traces are untouched), so the single recomputation fails the same
way, and the whole `compute_signals` call errors out. -/
theorem parzero_C10 :
    compute_da lgQ parZeroMD onesMD = .error .fpe ∧
    compute_da lgQ onesMD parZeroMD = .error .fpe ∧
    substZeros parZeroMD.ref = parZeroMD.ref ∧
    { parZeroMD with ref := substZeros parZeroMD.ref }.par = parZeroMD.par ∧
    compute_signals lgQ sC10 rawParZeroWO = .error (.fp .fpe) ∧
    stepOk lgQ sC10 rawParZeroWO = false := by
  refine ⟨?_, ?_, ?_, rfl, ?_, ?_⟩
  · with_unfolding_all rfl
  · with_unfolding_all rfl
  · funext i
    with_unfolding_all rfl
  · with_unfolding_all rfl
  · with_unfolding_all rfl
